import Mathlib

set_option maxRecDepth 20000

/-!
Verification of the authentication and session-lifecycle module (`auth.py`,
class `AuthManager`) of the repository.

Modelling conventions:
* Wall-clock time is modelled as `Nat` seconds.  `datetime.now()` becomes an
  explicit `now : Nat` argument to each operation; `timedelta(hours=24)` is
  `86400` seconds.  Timestamps that Python stores as ISO-8601 strings and
  re-parses with `fromisoformat` are kept as the underlying `Nat` instants
  (`fromisoformat ∘ isoformat = id`, and comparison of the parsed datetimes is
  exactly comparison of the instants).
* The two JSON files (`users.json`, `sessions.json`) are the persistent state;
  every operation loads a collection, mutates an in-memory copy and writes it
  back in full.  The pair of file contents is the `AuthState` record; an
  operation that performs no save returns the state unchanged.
* Python `dict`s (JSON objects) are association lists with unique keys;
  `d[k] = v` is replace-first-or-append, `del d[k]` removes the key,
  `k in d` is key membership.
* `hashlib.sha256`/`hashlib.md5` hex digests, `uuid.uuid4()` string formatting
  and `strftime("%Y%m%d")` are implemented faithfully below (the UUID random
  bytes and the clock are explicit arguments).
-/

/-! ### Bytes, 32-bit words and hex digests -/

/-- Truncation to a 32-bit word. -/
def u32 (n : Nat) : Nat := n % 4294967296

/-- 32-bit right rotation. -/
def rotr32 (x n : Nat) : Nat := u32 ((x >>> n) ||| (x <<< (32 - n)))

/-- 32-bit left rotation. -/
def rotl32 (x n : Nat) : Nat := u32 ((x <<< n) ||| (x >>> (32 - n)))

/-- Concatenation of a list of lists. -/
def listFlat {α : Type} : List (List α) → List α
  | [] => []
  | l :: ls => l ++ listFlat ls

/-- UTF-8 encoding of one code point (Python's `str.encode()` per character). -/
def utf8Char (c : Char) : List Nat :=
  let n := c.toNat
  if n < 128 then [n]
  else if n < 2048 then [192 + n / 64, 128 + n % 64]
  else if n < 65536 then [224 + n / 4096, 128 + (n / 64) % 64, 128 + n % 64]
  else [240 + n / 262144, 128 + (n / 4096) % 64, 128 + (n / 64) % 64, 128 + n % 64]

/-- Python `s.encode()`: UTF-8 bytes of a string. -/
def strBytes (s : String) : List Nat := listFlat (s.data.map utf8Char)

/-- Lowercase hex digit, as produced by `hexdigest()`. -/
def hexChar (n : Nat) : Char := if n < 10 then Char.ofNat (48 + n) else Char.ofNat (87 + n)

/-- Two lowercase hex digits of one byte. -/
def byteHex (b : Nat) : List Char := [hexChar (b / 16), hexChar (b % 16)]

/-- `hexdigest()`: lowercase hex string of a byte list. -/
def hexStr (bs : List Nat) : String := ⟨listFlat (bs.map byteHex)⟩

/-! ### SHA-256 (`hashlib.sha256`) -/

/-- SHA-256 round constants (decimal, FIPS 180-4). -/
def shaK : List Nat :=
  [1116352408, 1899447441, 3049323471, 3921009573, 961987163, 1508970993,
   2453635748, 2870763221, 3624381080, 310598401, 607225278, 1426881987,
   1925078388, 2162078206, 2614888103, 3248222580, 3835390401, 4022224774,
   264347078, 604807628, 770255983, 1249150122, 1555081692, 1996064986,
   2554220882, 2821834349, 2952996808, 3210313671, 3336571891, 3584528711,
   113926993, 338241895, 666307205, 773529912, 1294757372, 1396182291,
   1695183700, 1986661051, 2177026350, 2456956037, 2730485921, 2820302411,
   3259730800, 3345764771, 3516065817, 3600352804, 4094571909, 275423344,
   430227734, 506948616, 659060556, 883997877, 958139571, 1322822218,
   1537002063, 1747873779, 1955562222, 2024104815, 2227730452, 2361852424,
   2428436474, 2756734187, 3204031479, 3329325298]

/-- SHA-256 initial hash value (decimal, FIPS 180-4). -/
def shaH0 : List Nat :=
  [1779033703, 3144134277, 1013904242, 2773480762,
   1359893119, 2600822924, 528734635, 1541459225]

/-- Big-endian 32-bit words of a byte list. -/
def beWords : List Nat → List Nat
  | a :: b :: c :: d :: rest => (((a * 256 + b) * 256 + c) * 256 + d) :: beWords rest
  | _ => []

/-- Big-endian bytes of a 32-bit word. -/
def beBytes (w : Nat) : List Nat :=
  [w / 16777216 % 256, w / 65536 % 256, w / 256 % 256, w % 256]

/-- Big-endian 8-byte encoding of the bit length. -/
def lenBytes8 (ml : Nat) : List Nat :=
  [ml / 72057594037927936 % 256, ml / 281474976710656 % 256, ml / 1099511627776 % 256,
   ml / 4294967296 % 256, ml / 16777216 % 256, ml / 65536 % 256, ml / 256 % 256, ml % 256]

/-- Merkle–Damgård padding: `0x80`, zeros to 56 mod 64, 8-byte big-endian bit length. -/
def shaPad (msg : List Nat) : List Nat :=
  msg ++ [128] ++ List.replicate ((119 - msg.length % 64) % 64) 0 ++ lenBytes8 (msg.length * 8)

/-- Split a byte list into 64-byte chunks (structural recursion on a fuel
bound so that the definition reduces in the kernel). -/
def chunksGo : Nat → List Nat → List (List Nat)
  | _, [] => []
  | 0, l => [l]
  | fuel + 1, a :: l => ((a :: l).take 64) :: chunksGo fuel ((a :: l).drop 64)

/-- Split a byte list into 64-byte chunks. -/
def chunks64 (l : List Nat) : List (List Nat) := chunksGo l.length l

/-- Extend 16 schedule words to 64. -/
def shaExtend (w : List Nat) : List Nat :=
  (List.range 48).foldl (fun w j =>
    let i := j + 16
    let w15 := w.getD (i - 15) 0
    let w2 := w.getD (i - 2) 0
    let s0 := (rotr32 w15 7) ^^^ (rotr32 w15 18) ^^^ (w15 >>> 3)
    let s1 := (rotr32 w2 17) ^^^ (rotr32 w2 19) ^^^ (w2 >>> 10)
    w ++ [u32 (w.getD (i - 16) 0 + s0 + w.getD (i - 7) 0 + s1)]) w

/-- One SHA-256 round on the 8-word state. -/
def shaStep (k w : Nat) (st : List Nat) : List Nat :=
  let a := st.getD 0 0
  let b := st.getD 1 0
  let c := st.getD 2 0
  let d := st.getD 3 0
  let e := st.getD 4 0
  let f := st.getD 5 0
  let g := st.getD 6 0
  let h := st.getD 7 0
  let s1 := (rotr32 e 6) ^^^ (rotr32 e 11) ^^^ (rotr32 e 25)
  let ch := (e &&& f) ^^^ ((e ^^^ 4294967295) &&& g)
  let temp1 := u32 (h + s1 + ch + k + w)
  let s0 := (rotr32 a 2) ^^^ (rotr32 a 13) ^^^ (rotr32 a 22)
  let maj := (a &&& b) ^^^ (a &&& c) ^^^ (b &&& c)
  let temp2 := u32 (s0 + maj)
  [u32 (temp1 + temp2), a, b, c, u32 (d + temp1), e, f, g]

/-- Compress one 64-byte chunk into the running hash. -/
def shaCompress (h : List Nat) (chunk : List Nat) : List Nat :=
  let w := shaExtend (beWords chunk)
  let st := (List.range 64).foldl (fun st i => shaStep (shaK.getD i 0) (w.getD i 0) st) h
  (List.range 8).map (fun i => u32 (h.getD i 0 + st.getD i 0))

/-- SHA-256 digest (32 bytes) of a byte list. -/
def sha256 (msg : List Nat) : List Nat :=
  listFlat (((chunks64 (shaPad msg)).foldl shaCompress shaH0).map beBytes)

/-- `AuthManager.hash_password`: SHA-256 hex digest of the UTF-8 password bytes. -/
def hash_password (password : String) : String := hexStr (sha256 (strBytes password))

example : hash_password "secret1" =
    "5b11618c2e44027877d0cd0921ed166b9f176f50587fc91e7534dd2946db77d6" := by rfl

example : hash_password "" =
    "e3b0c44298fc1c149afbf4c8996fb92427ae41e4649b934ca495991b7852b855" := by rfl

/-! ### MD5 (`hashlib.md5`) -/

/-- MD5 round constants (decimal, `⌊2³² · |sin(i+1)|⌋`). -/
def md5K : List Nat :=
  [3614090360, 3905402710, 606105819, 3250441966, 4118548399, 1200080426,
   2821735955, 4249261313, 1770035416, 2336552879, 4294925233, 2304563134,
   1804603682, 4254626195, 2792965006, 1236535329, 4129170786, 3225465664,
   643717713, 3921069994, 3593408605, 38016083, 3634488961, 3889429448,
   568446438, 3275163606, 4107603335, 1163531501, 2850285829, 4243563512,
   1735328473, 2368359562, 4294588738, 2272392833, 1839030562, 4259657740,
   2763975236, 1272893353, 4139469664, 3200236656, 681279174, 3936430074,
   3572445317, 76029189, 3654602809, 3873151461, 530742520, 3299628645,
   4096336452, 1126891415, 2878612391, 4237533241, 1700485571, 2399980690,
   4293915773, 2240044497, 1873313359, 4264355552, 2734768916, 1309151649,
   4149444226, 3174756917, 718787259, 3951481745]

/-- MD5 per-round left-rotation amounts. -/
def md5s : List Nat :=
  [7, 12, 17, 22, 7, 12, 17, 22, 7, 12, 17, 22, 7, 12, 17, 22,
   5, 9, 14, 20, 5, 9, 14, 20, 5, 9, 14, 20, 5, 9, 14, 20,
   4, 11, 16, 23, 4, 11, 16, 23, 4, 11, 16, 23, 4, 11, 16, 23,
   6, 10, 15, 21, 6, 10, 15, 21, 6, 10, 15, 21, 6, 10, 15, 21]

/-- MD5 initial state (decimal). -/
def md5Init : List Nat := [1732584193, 4023233417, 2562383102, 271733878]

/-- Little-endian 32-bit words of a byte list. -/
def leWords : List Nat → List Nat
  | a :: b :: c :: d :: rest => (((d * 256 + c) * 256 + b) * 256 + a) :: leWords rest
  | _ => []

/-- Little-endian bytes of a 32-bit word. -/
def leBytes (w : Nat) : List Nat :=
  [w % 256, w / 256 % 256, w / 65536 % 256, w / 16777216 % 256]

/-- Little-endian 8-byte encoding of the bit length. -/
def lenBytes8LE (ml : Nat) : List Nat :=
  [ml % 256, ml / 256 % 256, ml / 65536 % 256, ml / 16777216 % 256, ml / 4294967296 % 256,
   ml / 1099511627776 % 256, ml / 281474976710656 % 256, ml / 72057594037927936 % 256]

/-- MD5 padding: like SHA-256 but with a little-endian length field. -/
def md5Pad (msg : List Nat) : List Nat :=
  msg ++ [128] ++ List.replicate ((119 - msg.length % 64) % 64) 0 ++ lenBytes8LE (msg.length * 8)

/-- One MD5 round on the 4-word state. -/
def md5Step (m : List Nat) (st : List Nat) (i : Nat) : List Nat :=
  let a := st.getD 0 0
  let b := st.getD 1 0
  let c := st.getD 2 0
  let d := st.getD 3 0
  let fg : Nat × Nat :=
    if i < 16 then ((b &&& c) ||| ((b ^^^ 4294967295) &&& d), i)
    else if i < 32 then ((d &&& b) ||| ((d ^^^ 4294967295) &&& c), (5 * i + 1) % 16)
    else if i < 48 then (b ^^^ c ^^^ d, (3 * i + 5) % 16)
    else (c ^^^ (b ||| (d ^^^ 4294967295)), (7 * i) % 16)
  let f := u32 (fg.1 + a + md5K.getD i 0 + m.getD fg.2 0)
  [d, u32 (b + rotl32 f (md5s.getD i 0)), b, c]

/-- Compress one 64-byte chunk into the running MD5 state. -/
def md5Compress (h : List Nat) (chunk : List Nat) : List Nat :=
  let m := leWords chunk
  let st := (List.range 64).foldl (md5Step m) h
  (List.range 4).map (fun i => u32 (h.getD i 0 + st.getD i 0))

/-- MD5 digest (16 bytes) of a byte list. -/
def md5 (msg : List Nat) : List Nat :=
  listFlat (((chunks64 (md5Pad msg)).foldl md5Compress md5Init).map leBytes)

example : hexStr (md5 (strBytes "alice")) = "6384e2b2184bcbf58eccf10ca7a6563c" := by rfl

/-! ### UUID4, calendar dates, `str.title()` -/

/-- `str(uuid.uuid4())` given the 16 random bytes from `os.urandom(16)`:
version and variant bits are forced, then the bytes are printed as lowercase
hex in 8-4-4-4-12 groups.  Shorter random input is zero-extended so the
function is total; CPython always supplies exactly 16 bytes. -/
def uuid4str (rnd : List Nat) : String :=
  let b := (rnd.map (· % 256)) ++ List.replicate (16 - rnd.length) 0
  let b6 := (b.getD 6 0) % 16 + 64
  let b8 := (b.getD 8 0) % 64 + 128
  let bytes := b.take 6 ++ [b6, b.getD 7 0, b8] ++ ((b.drop 9).take 7)
  let hx := listFlat (bytes.map byteHex)
  ⟨hx.take 8 ++ '-' :: ((hx.drop 8).take 4) ++ '-' :: ((hx.drop 12).take 4) ++
    '-' :: ((hx.drop 16).take 4) ++ '-' :: (hx.drop 20)⟩

example : uuid4str (List.replicate 16 0) = "00000000-0000-4000-8000-000000000000" := by rfl

/-- Civil (proleptic Gregorian) date of a day count since 1970-01-01
(Howard Hinnant's `civil_from_days`, restricted to non-negative days). -/
def civilOfDays (days : Nat) : Nat × Nat × Nat :=
  let z := days + 719468
  let era := z / 146097
  let doe := z % 146097
  let yoe := (doe - doe / 1460 + doe / 36524 - doe / 146096) / 365
  let y := yoe + era * 400
  let doy := doe - (365 * yoe + yoe / 4 - yoe / 100)
  let mp := (5 * doy + 2) / 153
  let d := doy - (153 * mp + 2) / 5 + 1
  let m := if mp < 10 then mp + 3 else mp - 9
  (if m ≤ 2 then y + 1 else y, (m, d))

/-- Decimal digit character. -/
def digitChar (n : Nat) : Char := Char.ofNat (48 + n)

/-- Four-digit zero-padded decimal (Python `%Y`; `datetime` years are ≤ 9999). -/
def pad4 (n : Nat) : List Char :=
  [digitChar (n / 1000 % 10), digitChar (n / 100 % 10), digitChar (n / 10 % 10),
   digitChar (n % 10)]

/-- Two-digit zero-padded decimal (Python `%m`, `%d`). -/
def pad2 (n : Nat) : List Char := [digitChar (n / 10 % 10), digitChar (n % 10)]

/-- `datetime.now().strftime("%Y%m%d")` for a clock reading of `now` seconds
since the epoch. -/
def dateYYYYMMDD (now : Nat) : String :=
  let c := civilOfDays (now / 86400)
  ⟨pad4 c.1 ++ pad2 c.2.1 ++ pad2 c.2.2⟩

example : dateYYYYMMDD 1760227200 = "20251012" := by rfl

/-- Python `str.title()` (ASCII): the first character of each alphabetic run
is uppercased, the rest lowercased. -/
def pyTitleGo : Bool → List Char → List Char
  | _, [] => []
  | prev, c :: cs => (if prev then c.toLower else c.toUpper) :: pyTitleGo c.isAlpha cs

/-- Python `username.title()`. -/
def pyTitle (s : String) : String := ⟨pyTitleGo false s.data⟩

example : pyTitle "alice smith" = "Alice Smith" := by rfl

/-- `AuthManager.generate_client_id`: role code, first six hex digits of the
MD5 of the username uppercased (`hexdigest()[:6].upper()`, modelled on the
character list), and the registration date. -/
def generate_client_id (now : Nat) (username role : String) : String :=
  let timestamp := dateYYYYMMDD now
  let role_code := if role = "investor" then "INV" else "IVE"
  let username_hash : String := ⟨((hexStr (md5 (strBytes username))).data.take 6).map Char.toUpper⟩
  role_code ++ "_" ++ username_hash ++ "_" ++ timestamp

example : generate_client_id 1760227200 "alice" "investor" = "INV_6384E2_20251012" := by rfl

/-! ### Association-list stores (Python dicts persisted as JSON objects) -/

/-- A JSON-object collection: an association list, with unique keys in every
state a Python dict can produce. -/
abbrev Store (α : Type) : Type := List (String × α)

/-- Python `k in d`. -/
def Store.mem {α : Type} (s : Store α) (k : String) : Bool :=
  s.any (fun p => p.1 == k)

/-- Python `d[k]` lookup (`none` when the key is absent). -/
def Store.get? {α : Type} (s : Store α) (k : String) : Option α :=
  (s.find? (fun p => p.1 == k)).map (fun p => p.2)

/-- Python `d[k] = v`: replace the first binding of `k`, or append a new one. -/
def Store.set {α : Type} : Store α → String → α → Store α
  | [], k, v => [(k, v)]
  | p :: s, k, v => if p.1 = k then (k, v) :: s else p :: Store.set s k v

/-- Python `del d[k]`. -/
def Store.erase {α : Type} (s : Store α) (k : String) : Store α :=
  s.filter (fun p => p.1 != k)

/-! ### The authentication state and the six exposed operations -/

/-- A stored user record: the value of `users[username]`.  The two timestamp
fields are kept as instants (see the module comment). -/
structure UserRecord where
  password : String
  role : String
  full_name : String
  client_id : String
  created_at : Nat
  last_login : Nat
deriving DecidableEq

/-- A stored session record: the value of `sessions[session_id]`. -/
structure SessionRecord where
  username : String
  created_at : Nat
  expires_at : Nat
deriving DecidableEq

/-- The persistent state of `AuthManager`: the contents of `users.json` and
`sessions.json`.  Each operation loads from this state and an operation that
calls `save_users`/`save_sessions` returns the updated state. -/
structure AuthState where
  users : Store UserRecord
  sessions : Store SessionRecord
deriving DecidableEq

/-- `AuthManager.create_session`: store a fresh session (random token from
`rnd`, 24-hour expiry) and return its id.  `now` is the clock reading and
`rnd` the bytes drawn by `uuid.uuid4()`. -/
def create_session (now : Nat) (rnd : List Nat) (username : String) (st : AuthState) :
    String × AuthState :=
  let session_id := uuid4str rnd
  let sessions := st.sessions.set session_id ⟨username, now, now + 86400⟩
  (session_id, { st with sessions := sessions })

/-- `AuthManager.register_user`: validation (duplicate, empty fields, bad
role, in the source's order), then store the hashed record, persist, and
auto-create a session. -/
def register_user (now : Nat) (rnd : List Nat) (username password role : String)
    (st : AuthState) : (Bool × String × String) × AuthState :=
  let users := st.users
  if users.mem username then ((false, "Username already exists", ""), st)
  else if username = "" ∨ password = "" then
    ((false, "Username and password are required", ""), st)
  else if role ≠ "investor" ∧ role ≠ "investee" then
    ((false, "Invalid role selected", ""), st)
  else
    let client_id := generate_client_id now username role
    let users := users.set username
      ⟨hash_password password, role, pyTitle username, client_id, now, now⟩
    let st1 : AuthState := { st with users := users }
    let res := create_session now rnd username st1
    ((true, "User registered successfully! Client ID: " ++ client_id, res.1), res.2)

/-- `AuthManager.authenticate_user`: the source tests `username not in users`
and then reads `users[username]`; the model matches on the lookup, which is
equivalent for an association list. -/
def authenticate_user (now : Nat) (username password : String) (st : AuthState) :
    (Bool × Option UserRecord) × AuthState :=
  match st.users.get? username with
  | none => ((false, none), st)
  | some user =>
    if user.password = hash_password password then
      let user' := { user with last_login := now }
      ((true, some user'), { st with users := st.users.set username user' })
    else ((false, none), st)

/-- `AuthManager.validate_session`: unknown token → invalid; expired token
(strict `now > expires_at`) → delete, persist, invalid; otherwise valid with
the owning username. -/
def validate_session (now : Nat) (session_id : String) (st : AuthState) :
    (Bool × Option String) × AuthState :=
  match st.sessions.get? session_id with
  | none => ((false, none), st)
  | some session =>
    if now > session.expires_at then
      ((false, none), { st with sessions := st.sessions.erase session_id })
    else ((true, some session.username), st)

/-- `AuthManager.logout_user`: delete the session if present and persist;
otherwise do nothing. -/
def logout_user (session_id : String) (st : AuthState) : AuthState :=
  if st.sessions.mem session_id then { st with sessions := st.sessions.erase session_id }
  else st

/-- `AuthManager.get_user_info`: plain lookup, no state change. -/
def get_user_info (username : String) (st : AuthState) : Option UserRecord × AuthState :=
  (st.users.get? username, st)

/-! ### Association-list lemmas -/

theorem Store.get?_set_self {α : Type} (s : Store α) (k : String) (v : α) :
    (s.set k v).get? k = some v := by
  induction s with
  | nil => simp [Store.set, Store.get?]
  | cons p s ih =>
    by_cases h : p.1 = k
    · simp [Store.set, Store.get?, h]
    · simpa [Store.set, Store.get?, h] using ih

theorem Store.get?_set_ne {α : Type} (s : Store α) (k k' : String) (v : α) (h : k' ≠ k) :
    (s.set k v).get? k' = s.get? k' := by
  induction s with
  | nil => simp [Store.set, Store.get?, Ne.symm h]
  | cons p s ih =>
    by_cases hp : p.1 = k
    · simp [Store.set, Store.get?, hp, Ne.symm h]
    · by_cases hp' : p.1 = k'
      · simp [Store.set, Store.get?, hp, hp', h]
      · simpa [Store.set, Store.get?, hp, hp'] using ih

theorem Store.set_of_not_mem {α : Type} (s : Store α) (k : String) (v : α)
    (h : s.mem k = false) : s.set k v = s ++ [(k, v)] := by
  induction s with
  | nil => simp [Store.set]
  | cons p s ih =>
    simp [Store.mem] at h
    simp [Store.set, h.1, ih (by simpa [Store.mem] using h.2)]

theorem Store.keys_set_of_mem {α : Type} (s : Store α) (k : String) (v : α)
    (h : s.mem k = true) : (s.set k v).map Prod.fst = s.map Prod.fst := by
  induction s with
  | nil => simp [Store.mem] at h
  | cons p s ih =>
    by_cases hp : p.1 = k
    · simp [Store.set, hp]
    · simp [Store.mem, hp] at h
      simp [Store.set, hp, ih (by simpa [Store.mem] using h)]

theorem Store.mem_of_set_mem {α : Type} {s : Store α} {k : String} {v : α}
    {q : String × α} (h : q ∈ s.set k v) : q = (k, v) ∨ q ∈ s := by
  induction s with
  | nil => simpa [Store.set] using h
  | cons p s ih =>
    by_cases hp : p.1 = k
    · simp [Store.set, hp] at h
      rcases h with h | h
      · exact Or.inl h
      · exact Or.inr (List.mem_cons_of_mem _ h)
    · simp [Store.set, hp] at h
      rcases h with h | h
      · exact Or.inr (by simp [h])
      · rcases ih h with h' | h'
        · exact Or.inl h'
        · exact Or.inr (List.mem_cons_of_mem _ h')

theorem Store.get?_erase_self {α : Type} (s : Store α) (k : String) :
    (s.erase k).get? k = none := by
  induction s with
  | nil => simp [Store.erase, Store.get?]
  | cons p s ih =>
    by_cases hp : p.1 = k
    · simpa [Store.erase, hp] using ih
    · simp [Store.erase, Store.get?, hp]

theorem Store.mem_erase_self {α : Type} (s : Store α) (k : String) :
    (s.erase k).mem k = false := by
  induction s with
  | nil => simp [Store.erase, Store.mem]
  | cons p s ih =>
    by_cases hp : p.1 = k
    · simpa [Store.erase, hp] using ih
    · simp [Store.erase, Store.mem, hp]

theorem Store.erase_of_not_mem {α : Type} (s : Store α) (k : String)
    (h : s.mem k = false) : s.erase k = s := by
  induction s with
  | nil => simp [Store.erase]
  | cons p s ih =>
    simp [Store.mem] at h
    have h2 : Store.mem s k = false := by
      simp [Store.mem]
      exact h.2
    have h3 := ih h2
    simp only [Store.erase] at h3
    simp only [Store.erase, List.filter_cons]
    rw [if_pos (by simp [h.1]), h3]

theorem Store.mem_false_iff {α : Type} (s : Store α) (k : String) :
    s.mem k = false ↔ k ∉ s.map Prod.fst := by
  induction s with
  | nil => simp [Store.mem]
  | cons p s ih =>
    by_cases hp : p.1 = k
    · simp [Store.mem, hp]
    · simpa [Store.mem, hp, Ne.symm hp] using ih

theorem Store.get?_eq_some_mem {α : Type} {s : Store α} {k : String} {v : α}
    (h : s.get? k = some v) : (k, v) ∈ s := by
  induction s with
  | nil => simp [Store.get?] at h
  | cons p s ih =>
    by_cases hp : p.1 = k
    · simp [Store.get?, hp] at h
      have : p = (k, v) := by
        cases p
        simp_all
      simp [this]
    · simp [Store.get?, hp] at h
      exact List.mem_cons_of_mem _ (ih (by simpa [Store.get?] using h))

theorem Store.get?_eq_none_of_not_mem {α : Type} {s : Store α} {k : String}
    (h : s.mem k = false) : s.get? k = none := by
  induction s with
  | nil => simp [Store.get?]
  | cons p s ih =>
    simp [Store.mem] at h
    have h2 : Store.mem s k = false := by
      simp [Store.mem]
      exact h.2
    simp [Store.get?, h.1]
    simpa [Store.get?] using ih h2

theorem Store.mem_of_get? {α : Type} {s : Store α} {k : String} {v : α}
    (h : s.get? k = some v) : s.mem k = true := by
  have hm := Store.get?_eq_some_mem h
  simp only [Store.mem]
  rw [List.any_eq_true]
  exact ⟨(k, v), hm, by simp⟩

/-! ### Shape facts about the digests and derived strings -/

theorem shaCompress_length (h c : List Nat) : (shaCompress h c).length = 8 := by
  simp [shaCompress]

theorem sha_foldl_length (l : List (List Nat)) (h : List Nat) (hh : h.length = 8) :
    (l.foldl shaCompress h).length = 8 := by
  induction l generalizing h with
  | nil => simpa using hh
  | cons c l ih => exact ih _ (shaCompress_length h c)

theorem listFlat_map_length_four {β : Type} (f : β → List Nat)
    (hf : ∀ b, (f b).length = 4) (l : List β) :
    (listFlat (l.map f)).length = 4 * l.length := by
  induction l with
  | nil => simp [listFlat]
  | cons b l ih =>
    simp [listFlat, hf, ih]
    ring

theorem sha256_length (m : List Nat) : (sha256 m).length = 32 := by
  have h := sha_foldl_length (chunks64 (shaPad m)) shaH0 (by simp [shaH0])
  rw [sha256, listFlat_map_length_four beBytes (fun w => by simp [beBytes]), h]

theorem mk_ne_empty (c : Char) (l : List Char) : (⟨c :: l⟩ : String) ≠ "" := by
  intro h
  have h2 := congrArg String.data h
  simp at h2

theorem hash_password_ne_empty (p : String) : hash_password p ≠ "" := by
  have hlen := sha256_length (strBytes p)
  cases hsh : sha256 (strBytes p) with
  | nil => rw [hsh] at hlen; simp at hlen
  | cons b rest =>
    simp only [hash_password, hexStr, hsh, List.map_cons, listFlat, byteHex]
    exact mk_ne_empty _ _

theorem md5Compress_length (h c : List Nat) : (md5Compress h c).length = 4 := by
  simp [md5Compress]

theorem md5_foldl_length (l : List (List Nat)) (h : List Nat) (hh : h.length = 4) :
    (l.foldl md5Compress h).length = 4 := by
  induction l generalizing h with
  | nil => simpa using hh
  | cons c l ih => exact ih _ (md5Compress_length h c)

theorem md5_length (m : List Nat) : (md5 m).length = 16 := by
  have h := md5_foldl_length (chunks64 (md5Pad m)) md5Init (by simp [md5Init])
  rw [md5, listFlat_map_length_four leBytes (fun w => by simp [leBytes]), h]

theorem md5_bytes_lt (m : List Nat) : ∀ b ∈ md5 m, b < 256 := by
  rw [md5]
  generalize (chunks64 (md5Pad m)).foldl md5Compress md5Init = l
  induction l with
  | nil => simp [listFlat]
  | cons w l ih =>
    intro b hb
    simp only [List.map_cons, listFlat, List.mem_append] at hb
    rcases hb with hb | hb
    · simp [leBytes] at hb
      rcases hb with hb | hb | hb | hb <;> omega
    · exact ih b hb

/-- The uppercase hex alphabet `[A-F0-9]` of the client-id pattern. -/
def isUpperHex (c : Char) : Bool := c.isDigit || ('A' ≤ c && c ≤ 'F')

theorem hexChar_toUpper_upperHex (n : Nat) (h : n < 16) :
    isUpperHex (hexChar n).toUpper = true := by
  interval_cases n <;> decide

theorem hexStr_data_upperHex (bs : List Nat) (hb : ∀ b ∈ bs, b < 256) :
    ∀ c ∈ (hexStr bs).data, isUpperHex c.toUpper = true := by
  induction bs with
  | nil => simp [hexStr, listFlat]
  | cons b bs ih =>
    intro c hc
    have hb256 : b < 256 := hb b (by simp)
    simp only [hexStr, List.map_cons, listFlat, byteHex, List.cons_append, List.nil_append,
      List.mem_cons] at hc
    rcases hc with hc | hc | hc
    · subst hc; exact hexChar_toUpper_upperHex _ (by omega)
    · subst hc; exact hexChar_toUpper_upperHex _ (by omega)
    · exact ih (fun x hx => hb x (by simp [hx])) c hc

theorem hexStr_data_length (bs : List Nat) : (hexStr bs).data.length = 2 * bs.length := by
  induction bs with
  | nil => simp [hexStr, listFlat]
  | cons b bs ih =>
    simp only [hexStr, List.map_cons, listFlat, byteHex, List.cons_append, List.nil_append,
      List.length_cons] at *
    omega

theorem digitChar_isDigit (n : Nat) (h : n < 10) : (digitChar n).isDigit = true := by
  interval_cases n <;> decide

theorem dateYYYYMMDD_length (now : Nat) : (dateYYYYMMDD now).data.length = 8 := by
  simp [dateYYYYMMDD, pad4, pad2]

theorem dateYYYYMMDD_digits (now : Nat) :
    ∀ c ∈ (dateYYYYMMDD now).data, c.isDigit = true := by
  intro c hc
  simp [dateYYYYMMDD, pad4, pad2] at hc
  rcases hc with h | h | h | h | h | h | h | h <;> subst h <;>
    exact digitChar_isDigit _ (by omega)

theorem uuid4str_ne_empty (rnd : List Nat) : uuid4str rnd ≠ "" := by
  intro h
  have h2 := congrArg String.data h
  simp [uuid4str] at h2

/-! ### Claims -/

/-- C1: a session created at time `T` is stored with `expires_at = T + 24h`
(86400 s); validating its token returns `(true, some username)` whenever
`now ≤ T + 86400` — including at the exact expiry instant — and
`(false, none)` whenever `now > T + 86400` (the check is strict `>`). -/
theorem C1_expiry_boundary (st : AuthState) (rnd : List Nat) (u : String) (T now : Nat) :
    (now ≤ T + 86400 →
      (validate_session now (create_session T rnd u st).1 (create_session T rnd u st).2).1
        = (true, some u)) ∧
    (T + 86400 < now →
      (validate_session now (create_session T rnd u st).1 (create_session T rnd u st).2).1
        = (false, none)) := by
  have hget : ((create_session T rnd u st).2).sessions.get? ((create_session T rnd u st).1)
      = some ⟨u, T, T + 86400⟩ := by
    simp [create_session, Store.get?_set_self]
  constructor
  · intro h
    simp [validate_session, hget, Nat.not_lt.mpr h]
  · intro h
    simp [validate_session, hget, h]

theorem C1_expiry_boundary_witness :
    (86400 ≤ 0 + 86400 ∧
      (validate_session 86400 (create_session 0 [] "alice" ⟨[], []⟩).1
        (create_session 0 [] "alice" ⟨[], []⟩).2).1 = (true, some "alice")) ∧
    (0 + 86400 < 86401 ∧
      (validate_session 86401 (create_session 0 [] "alice" ⟨[], []⟩).1
        (create_session 0 [] "alice" ⟨[], []⟩).2).1 = (false, none)) :=
  ⟨⟨by decide, (C1_expiry_boundary ⟨[], []⟩ [] "alice" 0 86400).1 (by decide)⟩,
   ⟨by decide, (C1_expiry_boundary ⟨[], []⟩ [] "alice" 0 86401).2 (by decide)⟩⟩

/-- C2: validating a token whose stored expiry is strictly past returns
`(false, none)`, rewrites the session collection with the record deleted
(write-through eviction), and the token is absent from the stored collection
afterwards — a second validation also returns `(false, none)`. -/
theorem C2_lazy_eviction (st : AuthState) (sid : String) (s : SessionRecord)
    (now now2 : Nat) (hs : st.sessions.get? sid = some s) (hexp : s.expires_at < now) :
    (validate_session now sid st).1 = (false, none) ∧
    ((validate_session now sid st).2).sessions = st.sessions.erase sid ∧
    ((validate_session now sid st).2).sessions.get? sid = none ∧
    (validate_session now2 sid (validate_session now sid st).2).1 = (false, none) := by
  have h1 : validate_session now sid st
      = ((false, none), { st with sessions := st.sessions.erase sid }) := by
    simp [validate_session, hs, hexp]
  refine ⟨by rw [h1], by rw [h1], ?_, ?_⟩
  · rw [h1]
    exact Store.get?_erase_self _ _
  · rw [h1]
    simp [validate_session, Store.get?_erase_self]

theorem C2_lazy_eviction_witness :
    ((⟨[], [("tok", ⟨"alice", 0, 86400⟩)]⟩ : AuthState).sessions.get? "tok"
        = some ⟨"alice", 0, 86400⟩ ∧ 86400 < 86401) ∧
    (validate_session 86401 "tok" ⟨[], [("tok", ⟨"alice", 0, 86400⟩)]⟩).1 = (false, none) ∧
    ((validate_session 86401 "tok" ⟨[], [("tok", ⟨"alice", 0, 86400⟩)]⟩).2).sessions.get? "tok"
        = none ∧
    (validate_session 99999 "tok"
        (validate_session 86401 "tok" ⟨[], [("tok", ⟨"alice", 0, 86400⟩)]⟩).2).1
        = (false, none) :=
  ⟨⟨by rfl, by decide⟩,
   (C2_lazy_eviction ⟨[], [("tok", ⟨"alice", 0, 86400⟩)]⟩ "tok" ⟨"alice", 0, 86400⟩
      86401 99999 (by rfl) (by decide)).1,
   (C2_lazy_eviction ⟨[], [("tok", ⟨"alice", 0, 86400⟩)]⟩ "tok" ⟨"alice", 0, 86400⟩
      86401 99999 (by rfl) (by decide)).2.2.1,
   (C2_lazy_eviction ⟨[], [("tok", ⟨"alice", 0, 86400⟩)]⟩ "tok" ⟨"alice", 0, 86400⟩
      86401 99999 (by rfl) (by decide)).2.2.2⟩

/-- C6: logout is idempotent — after one call the token is absent from the
stored collection, a second call with the same token changes nothing (and
raises no error), and logout of an absent token is a no-op. -/
theorem C6_logout_idempotent (st : AuthState) (sid : String) :
    ((logout_user sid st).sessions.get? sid = none) ∧
    (logout_user sid (logout_user sid st) = logout_user sid st) ∧
    (st.sessions.mem sid = false → logout_user sid st = st) := by
  have hno : ∀ s' : AuthState, s'.sessions.mem sid = false → logout_user sid s' = s' := by
    intro s' h
    simp [logout_user, h]
  have hmem2 : (logout_user sid st).sessions.mem sid = false := by
    cases h : st.sessions.mem sid
    · simp [logout_user, h]
    · simp [logout_user, h, Store.mem_erase_self]
  refine ⟨?_, hno _ hmem2, hno st⟩
  cases h : st.sessions.mem sid
  · simp [logout_user, h, Store.get?_eq_none_of_not_mem h]
  · simp [logout_user, h, Store.get?_erase_self]

theorem C6_logout_idempotent_witness :
    ((logout_user "tok" ⟨[], [("tok", ⟨"alice", 0, 86400⟩)]⟩).sessions.get? "tok" = none) ∧
    (logout_user "tok" (logout_user "tok" ⟨[], [("tok", ⟨"alice", 0, 86400⟩)]⟩)
      = logout_user "tok" ⟨[], [("tok", ⟨"alice", 0, 86400⟩)]⟩) ∧
    ((⟨[], []⟩ : AuthState).sessions.mem "tok" = false ∧
      logout_user "tok" ⟨[], []⟩ = ⟨[], []⟩) :=
  ⟨(C6_logout_idempotent ⟨[], [("tok", ⟨"alice", 0, 86400⟩)]⟩ "tok").1,
   (C6_logout_idempotent ⟨[], [("tok", ⟨"alice", 0, 86400⟩)]⟩ "tok").2.1,
   by decide, (C6_logout_idempotent ⟨[], []⟩ "tok").2.2 (by decide)⟩

/-- C7: the two authentication failure runs — unknown username, and known
username with a non-matching password hash — both return exactly
`(false, none)`, so the returned value does not distinguish the causes. -/
theorem C7_uniform_failure (st : AuthState) (n1 n2 : Nat) (u1 p1 u2 p2 : String)
    (h1 : st.users.get? u1 = none)
    (h2 : ∀ rec, st.users.get? u2 = some rec → rec.password ≠ hash_password p2) :
    (authenticate_user n1 u1 p1 st).1 = (false, none) ∧
    (authenticate_user n2 u2 p2 st).1 = (false, none) ∧
    (authenticate_user n1 u1 p1 st).1 = (authenticate_user n2 u2 p2 st).1 := by
  have ha : (authenticate_user n1 u1 p1 st).1 = (false, none) := by
    simp [authenticate_user, h1]
  have hb : (authenticate_user n2 u2 p2 st).1 = (false, none) := by
    cases hr : st.users.get? u2 with
    | none => simp [authenticate_user, hr]
    | some user => simp [authenticate_user, hr, h2 user hr]
  exact ⟨ha, hb, ha.trans hb.symm⟩

theorem C7_uniform_failure_witness :
    ((⟨[("alice", ⟨"5b11618c2e44027877d0cd0921ed166b9f176f50587fc91e7534dd2946db77d6",
        "investor", "Alice", "INV_6384E2_20251012", 0, 0⟩)], []⟩ : AuthState).users.get? "bob"
      = none) ∧
    (authenticate_user 5 "bob" "secret1"
      ⟨[("alice", ⟨"5b11618c2e44027877d0cd0921ed166b9f176f50587fc91e7534dd2946db77d6",
        "investor", "Alice", "INV_6384E2_20251012", 0, 0⟩)], []⟩).1 = (false, none) ∧
    (authenticate_user 6 "alice" "wrong"
      ⟨[("alice", ⟨"5b11618c2e44027877d0cd0921ed166b9f176f50587fc91e7534dd2946db77d6",
        "investor", "Alice", "INV_6384E2_20251012", 0, 0⟩)], []⟩).1 = (false, none) :=
  ⟨by rfl,
   (C7_uniform_failure
      ⟨[("alice", ⟨"5b11618c2e44027877d0cd0921ed166b9f176f50587fc91e7534dd2946db77d6",
        "investor", "Alice", "INV_6384E2_20251012", 0, 0⟩)], []⟩ 5 6 "bob" "secret1"
      "alice" "wrong" (by rfl)
      (by
        intro rec hr
        have he : (⟨[("alice",
            ⟨"5b11618c2e44027877d0cd0921ed166b9f176f50587fc91e7534dd2946db77d6",
            "investor", "Alice", "INV_6384E2_20251012", 0, 0⟩)], []⟩ : AuthState).users.get?
            "alice" = some ⟨"5b11618c2e44027877d0cd0921ed166b9f176f50587fc91e7534dd2946db77d6",
            "investor", "Alice", "INV_6384E2_20251012", 0, 0⟩ := by rfl
        rw [he] at hr
        cases hr
        decide)).1,
   (C7_uniform_failure
      ⟨[("alice", ⟨"5b11618c2e44027877d0cd0921ed166b9f176f50587fc91e7534dd2946db77d6",
        "investor", "Alice", "INV_6384E2_20251012", 0, 0⟩)], []⟩ 5 6 "bob" "secret1"
      "alice" "wrong" (by rfl)
      (by
        intro rec hr
        have he : (⟨[("alice",
            ⟨"5b11618c2e44027877d0cd0921ed166b9f176f50587fc91e7534dd2946db77d6",
            "investor", "Alice", "INV_6384E2_20251012", 0, 0⟩)], []⟩ : AuthState).users.get?
            "alice" = some ⟨"5b11618c2e44027877d0cd0921ed166b9f176f50587fc91e7534dd2946db77d6",
            "investor", "Alice", "INV_6384E2_20251012", 0, 0⟩ := by rfl
        rw [he] at hr
        cases hr
        decide)).2.1⟩

/-- C10: a failed registration and a failed authentication leave the
persistent state (both collections) exactly as it was. -/
theorem C10_failure_atomic (st : AuthState) (now now' : Nat) (rnd : List Nat)
    (u p r u' p' : String) :
    ((register_user now rnd u p r st).1.1 = false → (register_user now rnd u p r st).2 = st) ∧
    ((authenticate_user now' u' p' st).1.1 = false → (authenticate_user now' u' p' st).2 = st) := by
  constructor
  · intro h
    by_cases h1 : st.users.mem u = true
    · simp [register_user, h1]
    · by_cases h2 : u = "" ∨ p = ""
      · simp [register_user, h1, h2]
      · by_cases h3 : r ≠ "investor" ∧ r ≠ "investee"
        · simp [register_user, h1, h2, h3]
        · exfalso
          simp [register_user, h1, h2, h3] at h
  · intro h
    cases hr : st.users.get? u' with
    | none => simp [authenticate_user, hr]
    | some user =>
      by_cases hp : user.password = hash_password p'
      · exfalso
        simp [authenticate_user, hr, hp] at h
      · simp [authenticate_user, hr, hp]

theorem C10_failure_atomic_witness :
    ((register_user 0 [] "" "x" "investor" ⟨[], []⟩).1.1 = false ∧
     (register_user 0 [] "" "x" "investor" ⟨[], []⟩).2 = ⟨[], []⟩) ∧
    ((authenticate_user 0 "bob" "pw" ⟨[], []⟩).1.1 = false ∧
     (authenticate_user 0 "bob" "pw" ⟨[], []⟩).2 = ⟨[], []⟩) :=
  ⟨⟨by rfl, (C10_failure_atomic ⟨[], []⟩ 0 0 [] "" "x" "investor" "bob" "pw").1 (by rfl)⟩,
   ⟨by rfl, (C10_failure_atomic ⟨[], []⟩ 0 0 [] "" "x" "investor" "bob" "pw").2 (by rfl)⟩⟩

/-- C3: whenever registration succeeds, authenticating the same `(u, p)`
immediately afterwards succeeds and returns the stored user record (with
`last_login` refreshed to the authentication time, as the source does). -/
theorem C3_register_then_authenticate (st : AuthState) (now now2 : Nat)
    (rnd : List Nat) (u p r : String)
    (hok : (register_user now rnd u p r st).1.1 = true) :
    ∃ rec, ((register_user now rnd u p r st).2).users.get? u = some rec ∧
      (authenticate_user now2 u p (register_user now rnd u p r st).2).1
        = (true, some { rec with last_login := now2 }) := by
  by_cases h1 : st.users.mem u = true
  · exfalso
    simp [register_user, h1] at hok
  · by_cases h2 : u = "" ∨ p = ""
    · exfalso
      simp [register_user, h1, h2] at hok
    · by_cases h3 : r ≠ "investor" ∧ r ≠ "investee"
      · exfalso
        simp [register_user, h1, h2, h3] at hok
      · have hreg : (register_user now rnd u p r st).2
            = { users := st.users.set u ⟨hash_password p, r, pyTitle u,
                  generate_client_id now u r, now, now⟩,
                sessions := st.sessions.set (uuid4str rnd) ⟨u, now, now + 86400⟩ } := by
          simp [register_user, h1, h2, h3, create_session]
        have hget : ((register_user now rnd u p r st).2).users.get? u
            = some ⟨hash_password p, r, pyTitle u, generate_client_id now u r, now, now⟩ := by
          rw [hreg]
          exact Store.get?_set_self _ _ _
        refine ⟨_, hget, ?_⟩
        simp [authenticate_user, hget]

theorem C3_register_then_authenticate_witness :
    (register_user 0 [] "alice" "secret1" "investor" ⟨[], []⟩).1.1 = true ∧
    ∃ rec, ((register_user 0 [] "alice" "secret1" "investor" ⟨[], []⟩).2).users.get? "alice"
        = some rec ∧
      (authenticate_user 7 "alice" "secret1"
        (register_user 0 [] "alice" "secret1" "investor" ⟨[], []⟩).2).1
        = (true, some { rec with last_login := 7 }) :=
  ⟨by rfl, C3_register_then_authenticate ⟨[], []⟩ 0 7 [] "alice" "secret1" "investor" (by rfl)⟩

/-- C4, counterexample to the claim as stated: at `register("", "x", "bad")`
the role `"bad"` is invalid, yet the failure message is the empty-fields one,
not `"Invalid role selected"` — the source checks empty fields before the
role, so the claim's unconditional reading of the invalid-role message is
false. -/
theorem C4_counterexample :
    ("bad" ≠ "investor" ∧ "bad" ≠ "investee") ∧
    (register_user 0 [] "" "x" "bad" ⟨[], []⟩).1.1 = false ∧
    (register_user 0 [] "" "x" "bad" ⟨[], []⟩).1.2.1 = "Username and password are required" ∧
    (register_user 0 [] "" "x" "bad" ⟨[], []⟩).1.2.1 ≠ "Invalid role selected" :=
  ⟨by decide, by rfl, by rfl, by decide⟩

/-- C4 amended: registration fails (with empty session id) exactly when the
username is empty, the password is empty, the username already exists, or the
role is invalid; the message is "Username already exists" for a duplicate,
"Username and password are required" for empty fields with a fresh username,
and "Invalid role selected" for an invalid role **when the username is fresh
and both fields are non-empty** (the source checks in that order). -/
theorem C4_register_failures (st : AuthState) (now : Nat) (rnd : List Nat)
    (u p r : String) :
    ((register_user now rnd u p r st).1.1 = false ↔
      (u = "" ∨ p = "" ∨ st.users.mem u = true ∨ (r ≠ "investor" ∧ r ≠ "investee"))) ∧
    ((register_user now rnd u p r st).1.1 = false →
      (register_user now rnd u p r st).1.2.2 = "") ∧
    (st.users.mem u = true →
      (register_user now rnd u p r st).1.2.1 = "Username already exists") ∧
    (st.users.mem u = false → (u = "" ∨ p = "") →
      (register_user now rnd u p r st).1.2.1 = "Username and password are required") ∧
    (st.users.mem u = false → u ≠ "" → p ≠ "" → r ≠ "investor" → r ≠ "investee" →
      (register_user now rnd u p r st).1.2.1 = "Invalid role selected") := by
  by_cases h1 : st.users.mem u = true
  · simp [register_user, h1]
  · by_cases h2 : u = "" ∨ p = ""
    · simp only [register_user, h1, h2, if_true, if_false, Bool.false_eq_true,
        eq_self_iff_true]
      refine ⟨?_, ?_, ?_, ?_, ?_⟩ <;> simp [h1, h2] <;> tauto
    · by_cases h3 : r ≠ "investor" ∧ r ≠ "investee"
      · refine ⟨?_, ?_, ?_, ?_, ?_⟩ <;> simp [register_user, h1, h2, h3]
      · refine ⟨?_, ?_, ?_, ?_, ?_⟩
        · simp [register_user, h1, h2, h3]
        · simp [register_user, h1, h2, h3]
        · simp [register_user, h1, h2, h3]
        · simp [register_user, h1, h2, h3]
        · intro _ _ _ hr1 hr2
          exact absurd ⟨hr1, hr2⟩ h3

theorem C4_register_failures_witness :
    ((⟨[("alice", ⟨"h", "investor", "Alice", "cid", 0, 0⟩)], []⟩ : AuthState).users.mem "alice"
        = true ∧
      (register_user 0 [] "alice" "other" "investee"
        ⟨[("alice", ⟨"h", "investor", "Alice", "cid", 0, 0⟩)], []⟩).1.2.1
        = "Username already exists") ∧
    ((⟨[], []⟩ : AuthState).users.mem "" = false ∧
      (register_user 0 [] "" "x" "investor" ⟨[], []⟩).1.2.1
        = "Username and password are required" ∧
      (register_user 0 [] "" "x" "investor" ⟨[], []⟩).1.1 = false) :=
  ⟨⟨by rfl,
    (C4_register_failures ⟨[("alice", ⟨"h", "investor", "Alice", "cid", 0, 0⟩)], []⟩
      0 [] "alice" "other" "investee").2.2.1 (by rfl)⟩,
   ⟨by rfl,
    (C4_register_failures ⟨[], []⟩ 0 [] "" "x" "investor").2.2.2.1 (by rfl) (Or.inl rfl),
    (C4_register_failures ⟨[], []⟩ 0 [] "" "x" "investor").1.mpr (Or.inl rfl)⟩⟩

/-! ### The user-store invariant -/

/-- The enumerated roles. -/
def validRole (r : String) : Prop := r = "investor" ∨ r = "investee"

/-- The user-store invariant: usernames are unique, every role is one of the
two enumerated values, and every stored password hash is non-empty. -/
def usersInv (users : Store UserRecord) : Prop :=
  (users.map Prod.fst).Nodup ∧ ∀ q ∈ users, validRole q.2.role ∧ q.2.password ≠ ""

instance (r : String) : Decidable (validRole r) := by
  unfold validRole
  infer_instance

instance (users : Store UserRecord) : Decidable (usersInv users) := by
  unfold usersInv
  infer_instance

/-- C5: each of the six exposed operations preserves the user-store
invariant (the four session operations do not touch the user collection at
all). -/
theorem C5_users_invariant (st : AuthState) (now now2 now3 now4 : Nat)
    (rnd rnd2 : List Nat) (u p r u2 p2 u3 sid sid2 u4 : String)
    (hinv : usersInv st.users) :
    usersInv ((register_user now rnd u p r st).2).users ∧
    usersInv ((authenticate_user now2 u2 p2 st).2).users ∧
    usersInv ((create_session now3 rnd2 u3 st).2).users ∧
    usersInv ((validate_session now4 sid st).2).users ∧
    usersInv ((logout_user sid2 st).users) ∧
    usersInv ((get_user_info u4 st).2).users := by
  refine ⟨?_, ?_, ?_, ?_, ?_, ?_⟩
  · -- register_user
    by_cases h1 : st.users.mem u = true
    · simpa [register_user, h1] using hinv
    · by_cases h2 : u = "" ∨ p = ""
      · simpa [register_user, h1, h2] using hinv
      · by_cases h3 : r ≠ "investor" ∧ r ≠ "investee"
        · simpa [register_user, h1, h2, h3] using hinv
        · have h1' : st.users.mem u = false := by simpa using h1
          have hreg : ((register_user now rnd u p r st).2).users
              = st.users.set u ⟨hash_password p, r, pyTitle u,
                  generate_client_id now u r, now, now⟩ := by
            simp [register_user, h1, h2, h3, create_session]
          rw [hreg, Store.set_of_not_mem _ _ _ h1']
          constructor
          · rw [List.map_append]
            refine List.Nodup.append hinv.1 (List.nodup_singleton _) ?_
            intro x hx hx'
            simp at hx'
            subst hx'
            exact (Store.mem_false_iff _ _).mp h1' hx
          · intro q hq
            rcases List.mem_append.mp hq with hq | hq
            · exact hinv.2 q hq
            · simp at hq
              subst hq
              refine ⟨?_, hash_password_ne_empty p⟩
              simp only [validRole]
              tauto
  · -- authenticate_user
    cases hr : st.users.get? u2 with
    | none => simpa [authenticate_user, hr] using hinv
    | some user =>
      by_cases hp : user.password = hash_password p2
      · have hmem := Store.mem_of_get? hr
        have hauth : ((authenticate_user now2 u2 p2 st).2).users
            = st.users.set u2 { user with last_login := now2 } := by
          simp [authenticate_user, hr, hp]
        rw [hauth]
        constructor
        · rw [Store.keys_set_of_mem _ _ _ hmem]
          exact hinv.1
        · intro q hq
          rcases Store.mem_of_set_mem hq with hq | hq
          · subst hq
            exact hinv.2 (u2, user) (Store.get?_eq_some_mem hr)
          · exact hinv.2 q hq
      · simpa [authenticate_user, hr, hp] using hinv
  · -- create_session
    simpa [create_session] using hinv
  · -- validate_session
    cases hr : st.sessions.get? sid with
    | none => simpa [validate_session, hr] using hinv
    | some s =>
      by_cases hex : s.expires_at < now4
      · simpa [validate_session, hr, hex] using hinv
      · simpa [validate_session, hr, hex] using hinv
  · -- logout_user
    by_cases hm : st.sessions.mem sid2 = true
    · simpa [logout_user, hm] using hinv
    · simpa [logout_user, hm] using hinv
  · -- get_user_info
    simpa [get_user_info] using hinv

theorem C5_users_invariant_witness :
    usersInv (⟨[("alice", ⟨"h", "investor", "Alice", "cid", 0, 0⟩)], []⟩ : AuthState).users ∧
    (usersInv ((register_user 0 [] "bob" "pw" "investee"
        ⟨[("alice", ⟨"h", "investor", "Alice", "cid", 0, 0⟩)], []⟩).2).users ∧
     usersInv ((authenticate_user 1 "alice" "h"
        ⟨[("alice", ⟨"h", "investor", "Alice", "cid", 0, 0⟩)], []⟩).2).users ∧
     usersInv ((create_session 2 [] "alice"
        ⟨[("alice", ⟨"h", "investor", "Alice", "cid", 0, 0⟩)], []⟩).2).users ∧
     usersInv ((validate_session 3 "tok"
        ⟨[("alice", ⟨"h", "investor", "Alice", "cid", 0, 0⟩)], []⟩).2).users ∧
     usersInv ((logout_user "tok"
        ⟨[("alice", ⟨"h", "investor", "Alice", "cid", 0, 0⟩)], []⟩).users) ∧
     usersInv ((get_user_info "alice"
        ⟨[("alice", ⟨"h", "investor", "Alice", "cid", 0, 0⟩)], []⟩).2).users) :=
  ⟨by decide,
   C5_users_invariant ⟨[("alice", ⟨"h", "investor", "Alice", "cid", 0, 0⟩)], []⟩
     0 1 2 3 [] [] "bob" "pw" "investee" "alice" "h" "alice" "tok" "tok" "alice" (by decide)⟩

/-- C8: a successful registration's message embeds a client id of the form
`ROLE_PREFIX ++ "_" ++ hx ++ "_" ++ d`, where the role code is the fixed
3-letter code of the role (`INV` for investor, `IVE` otherwise), `hx` is six
uppercase-hex characters (the truncated uppercased MD5 of the username) and
`d` is the 8-digit registration date; the returned session id is non-empty. -/
theorem C8_client_id_format (st : AuthState) (now : Nat) (rnd : List Nat) (u p r : String)
    (hok : (register_user now rnd u p r st).1.1 = true) :
    ∃ hx d : String,
      (register_user now rnd u p r st).1.2.1
        = "User registered successfully! Client ID: "
          ++ ((if r = "investor" then "INV" else "IVE") ++ "_" ++ hx ++ "_" ++ d) ∧
      hx.data.length = 6 ∧ (∀ c ∈ hx.data, isUpperHex c = true) ∧
      d.data.length = 8 ∧ (∀ c ∈ d.data, c.isDigit = true) ∧
      (register_user now rnd u p r st).1.2.2 ≠ "" := by
  by_cases h1 : st.users.mem u = true
  · exfalso
    simp [register_user, h1] at hok
  · by_cases h2 : u = "" ∨ p = ""
    · exfalso
      simp [register_user, h1, h2] at hok
    · by_cases h3 : r ≠ "investor" ∧ r ≠ "investee"
      · exfalso
        simp [register_user, h1, h2, h3] at hok
      · refine ⟨⟨((hexStr (md5 (strBytes u))).data.take 6).map Char.toUpper⟩,
          dateYYYYMMDD now, ?_, ?_, ?_, dateYYYYMMDD_length now, dateYYYYMMDD_digits now, ?_⟩
        · simp [register_user, h1, h2, h3, generate_client_id]
        · show (((hexStr (md5 (strBytes u))).data.take 6).map Char.toUpper).length = 6
          rw [List.length_map, List.length_take, hexStr_data_length, md5_length]
          omega
        · intro c hc
          have hc' : c ∈ ((hexStr (md5 (strBytes u))).data.take 6).map Char.toUpper := hc
          rw [List.mem_map] at hc'
          obtain ⟨c', hc', rfl⟩ := hc'
          exact hexStr_data_upperHex _ (md5_bytes_lt _) c' (List.mem_of_mem_take hc')
        · simp [register_user, h1, h2, h3, create_session]
          exact uuid4str_ne_empty rnd

theorem C8_client_id_format_witness :
    (register_user 1760227200 [] "alice" "secret1" "investor" ⟨[], []⟩).1.1 = true ∧
    ∃ hx d : String,
      (register_user 1760227200 [] "alice" "secret1" "investor" ⟨[], []⟩).1.2.1
        = "User registered successfully! Client ID: "
          ++ ((if "investor" = "investor" then "INV" else "IVE") ++ "_" ++ hx ++ "_" ++ d) ∧
      hx.data.length = 6 ∧ (∀ c ∈ hx.data, isUpperHex c = true) ∧
      d.data.length = 8 ∧ (∀ c ∈ d.data, c.isDigit = true) ∧
      (register_user 1760227200 [] "alice" "secret1" "investor" ⟨[], []⟩).1.2.2 ≠ "" :=
  ⟨by rfl,
   C8_client_id_format ⟨[], []⟩ 1760227200 [] "alice" "secret1" "investor" (by rfl)⟩
